import Mathlib

/-!
Verification of the data-preparation and filtering core of the RATP
water-fountain dashboard (`src/app.py`).

The embedding starts from the rows the dashboard obtains after CSV ingestion
and column renaming (ingestion mechanics are outside the modelled core):

* `RawRecord` is one row with the thirteen renamed columns.  The two columns
  that may contain missing values (`nom_acces`, `zone_controlee`) are
  `Option String`; the postal-code column holds a `PyVal`, since pandas can
  surface it as an integer, a missing value (NaN), or a non-numeric string.
* `load_and_prepare_data` models the preparation pipeline of `app.py`
  lines 39-47: fill the two defaulted columns, derive `type_ligne` and
  `region`, sort by `ligne`.  The `region` lambda compares the raw cell with
  integers, so a string cell raises `TypeError` (modelled with `Except`);
  a NaN cell compares as `False` and falls to the `else` branch.
* `df_filtered` models the three chained boolean-mask filters of
  lines 252-258 (sentinels `"Tous"` / `"Toutes"` as in the code).
* `sort_key` models the custom display comparator of lines 101-108,
  including the `(0, int)` / `(0, n + 0.5)` / `(1, str)` tuples; the float
  `n + 0.5` is represented exactly as the rational `(2*n+1)/2`.
* `value_counts` models `Series.value_counts()`: keys in first-appearance
  order with their multiplicities, sorted ascending by count with a stable
  sort and then reversed, which is how pandas realises the descending order
  (it reverses an ascending argsort).  `top_lines` is `value_counts` followed
  by `head(10)`; `line_counts` adds the `sort_index()` of the bar chart.

The row sort of line 47 uses `List.insertionSort`, a stable sort; pandas'
default `kind='quicksort'` promises only the ordering, not tie stability,
and none of the proved statements below relies on the tie order of this sort.
-/

/-- Code-point comparison of character lists: Python's `str` `<`. -/
def charListLt : List Char → List Char → Bool
  | [], [] => false
  | [], _ :: _ => true
  | _ :: _, [] => false
  | a :: as, b :: bs => if a = b then charListLt as bs else decide (a < b)

/-- Python string `<` (lexicographic by code point). -/
def pyStrLt (a b : String) : Bool := charListLt a.data b.data

/-- Python string `<=`. -/
def pyStrLe (a b : String) : Bool := pyStrLt a b || decide (a = b)

/-- A scalar of the postal-code column as pandas hands it to the `region`
lambda: a parsed integer, a missing value (NaN), or a non-numeric string. -/
inductive PyVal where
  | int (n : Int)
  | nan
  | str (s : String)
deriving DecidableEq

/-- The one failure the pipeline can raise: comparing a string postal code
with an integer (`x >= 75000` on a `str`) is a Python `TypeError`. -/
inductive PyError where
  | typeError
deriving DecidableEq

/-- One raw row after `read_csv` and the column renaming of lines 32-36. -/
structure RawRecord where
  id_ratp : String
  ligne : String
  station : String
  longitude : String
  latitude : String
  id_idm : String
  adresse : String
  code_postal : PyVal
  commune : String
  num_acces : String
  nom_acces : Option String
  zone_controlee : Option String
  point_geo : String
deriving DecidableEq

/-- One prepared row: the defaulted columns are plain strings and the two
derived columns `type_ligne` and `region` are present. -/
structure FountainRecord where
  id_ratp : String
  ligne : String
  station : String
  longitude : String
  latitude : String
  id_idm : String
  adresse : String
  code_postal : PyVal
  commune : String
  num_acces : String
  nom_acces : String
  zone_controlee : String
  type_ligne : String
  region : String
  point_geo : String
deriving DecidableEq

/-- Line 43: `'RER' if x in ['A', 'B', 'C', 'D', 'E'] else 'Métro'`. -/
def type_ligne_of (x : String) : String :=
  if x ∈ ["A", "B", "C", "D", "E"] then "RER" else "Métro"

/-- Line 44: `'Paris' if x >= 75000 and x < 76000 else 'Banlieue'`.
An integer cell is compared directly; a NaN cell compares `False` with
`>=` (NumPy semantics) and yields `'Banlieue'`; a string cell raises
`TypeError` because Python cannot order `str` against `int`. -/
def region_of (x : PyVal) : Except PyError String :=
  match x with
  | PyVal.int n => Except.ok (if 75000 ≤ n ∧ n < 76000 then "Paris" else "Banlieue")
  | PyVal.nan => Except.ok "Banlieue"
  | PyVal.str _ => Except.error PyError.typeError

/-- Lines 39-44 applied to one row: fill `zone_controlee` with
`'non renseigné'` and `nom_acces` with `'Non spécifié'` when missing, keep
every other column as is, and derive `type_ligne` and `region`. -/
def prepRecord (r : RawRecord) : Except PyError FountainRecord :=
  match region_of r.code_postal with
  | Except.error e => Except.error e
  | Except.ok reg =>
      Except.ok (FountainRecord.mk r.id_ratp r.ligne r.station r.longitude
        r.latitude r.id_idm r.adresse r.code_postal r.commune r.num_acces
        (r.nom_acces.getD "Non spécifié") (r.zone_controlee.getD "non renseigné")
        (type_ligne_of r.ligne) reg r.point_geo)

/-- Row-wise preparation of the whole table; the first `TypeError` aborts. -/
def prepRows : List RawRecord → Except PyError (List FountainRecord)
  | [] => Except.ok []
  | r :: rs =>
      match prepRecord r, prepRows rs with
      | Except.ok frec, Except.ok rest => Except.ok (frec :: rest)
      | Except.error e, _ => Except.error e
      | Except.ok _, Except.error e => Except.error e

/-- Ordering used by line 47, `df.sort_values('ligne')`: Python string
comparison on the `ligne` column. -/
def rowLe (a b : FountainRecord) : Prop := pyStrLe a.ligne b.ligne = true

instance : DecidableRel rowLe :=
  fun a b => inferInstanceAs (Decidable (pyStrLe a.ligne b.ligne = true))

/-- Lines 29-49, `load_and_prepare_data`, starting from the renamed rows:
fill defaults, derive columns, sort by `ligne` ascending. -/
def load_and_prepare_data (raws : List RawRecord) :
    Except PyError (List FountainRecord) :=
  match prepRows raws with
  | Except.ok recs => Except.ok (List.insertionSort rowLe recs)
  | Except.error e => Except.error e

/-- The three interactive selections of lines 233-248: the multiselect of
lines, the transit-type box (`'Tous'` meaning all), and the zone box
(`'Toutes'` meaning all). -/
structure FilterSelection where
  lines : List String
  transitType : String
  zoneStatus : String
deriving DecidableEq

/-- Lines 252-258: membership mask on `ligne`, then an equality mask on
`type_ligne` unless `'Tous'`, then an equality mask on `zone_controlee`
unless `'Toutes'`. -/
def df_filtered (df : List FountainRecord) (sel : FilterSelection) :
    List FountainRecord :=
  let d1 := df.filter (fun r => decide (r.ligne ∈ sel.lines))
  let d2 := if sel.transitType ≠ "Tous"
    then d1.filter (fun r => decide (r.type_ligne = sel.transitType)) else d1
  if sel.zoneStatus ≠ "Toutes"
    then d2.filter (fun r => decide (r.zone_controlee = sel.zoneStatus)) else d2

/-- Python `str.isdigit` restricted to ASCII digits: non-empty and all
characters in `'0'..'9'`. -/
def pyIsdigit (s : String) : Bool := !s.data.isEmpty && s.data.all Char.isDigit

/-- Python `int(...)` on a digit string. -/
def strToNat (s : String) : Nat :=
  s.data.foldl (fun n c => n * 10 + (c.toNat - 48)) 0

/-- Python `s[:-3]`: everything but the last three characters. -/
def dropLast3 (s : String) : String := String.mk (s.data.take (s.data.length - 3))

/-- Python `s.endswith(suf)`: the last `len(suf)` characters equal `suf`. -/
def pyEndsWith (s suf : String) : Bool :=
  decide (s.data.drop (s.data.length - suf.data.length) = suf.data)

/-- The `elif` guard of line 105: `ligne[:-3].isdigit() and ligne.endswith('bis')`. -/
def pyIsBis (s : String) : Bool := pyIsdigit (dropLast3 s) && pyEndsWith s "bis"

/-- Second component of a `sort_key` tuple: a number for the `(0, _)` keys,
a string for the `(1, _)` keys. -/
inductive SortSnd where
  | num (q : ℚ)
  | str (s : String)
deriving DecidableEq

/-- Lines 101-108, `sort_key`: a digit line maps to `(0, int(ligne))`, a
`"N" + "bis"` line to `(0, int(ligne[:-3]) + 0.5)` — the rational
`(2*n+1)/2` is exactly the float `n + 0.5` — and anything else to
`(1, ligne)`. -/
def sort_key (ligne : String) : Nat × SortSnd :=
  if pyIsdigit ligne then (0, SortSnd.num (strToNat ligne))
  else if pyIsBis ligne then
    (0, SortSnd.num (Rat.divInt (2 * (strToNat (dropLast3 ligne) : Int) + 1) 2))
  else (1, SortSnd.str ligne)

/-- Strict comparison of second components.  Keys produced by `sort_key`
pair a number only with a number and a string only with a string once the
first components agree, so the mixed cases are never consulted. -/
def sndLtB : SortSnd → SortSnd → Bool
  | SortSnd.num a, SortSnd.num b => decide (a < b)
  | SortSnd.str a, SortSnd.str b => pyStrLt a b
  | SortSnd.num _, SortSnd.str _ => true
  | SortSnd.str _, SortSnd.num _ => false

/-- Non-strict comparison of second components (see `sndLtB`). -/
def sndLeB : SortSnd → SortSnd → Bool
  | SortSnd.num a, SortSnd.num b => decide (a ≤ b)
  | SortSnd.str a, SortSnd.str b => pyStrLe a b
  | SortSnd.num _, SortSnd.str _ => true
  | SortSnd.str _, SortSnd.num _ => false

/-- Python tuple `<` on sort keys. -/
def keyLtB (a b : Nat × SortSnd) : Bool :=
  decide (a.1 < b.1) || (decide (a.1 = b.1) && sndLtB a.2 b.2)

/-- Python tuple `<=` on sort keys, the order a stable sort uses. -/
def keyLeB (a b : Nat × SortSnd) : Bool :=
  decide (a.1 < b.1) || (decide (a.1 = b.1) && sndLeB a.2 b.2)

/-- The ordering `sorted(..., key=sort_key)` applies to line labels. -/
def keyRel (a b : String) : Prop := keyLeB (sort_key a) (sort_key b) = true

instance : DecidableRel keyRel :=
  fun a b => inferInstanceAs (Decidable (keyLeB (sort_key a) (sort_key b) = true))

/-- Line 123: `sorted(lines, key=sort_key)` — a stable sort under the
custom key, modelling Python's stable `sorted`. -/
def sortedByKey (l : List String) : List String := List.insertionSort keyRel l

/-- Distinct values of a column in order of first appearance, as the
pandas hash table enumerates them. -/
def firstSeenKeys : List String → List String
  | [] => []
  | x :: xs => x :: (firstSeenKeys xs).filter (fun y => y != x)

/-- Ascending count order used inside `value_counts`. -/
def cntRel (a b : String × Nat) : Prop := a.2 ≤ b.2

instance : DecidableRel cntRel := fun a b => Nat.decLe a.2 b.2

/-- `Series.value_counts()`: each distinct value with its multiplicity,
ordered by descending count.  pandas argsorts the counts ascending and
reverses the indexer, so the model stable-sorts ascending and reverses;
with equal counts the values therefore surface in reverse first-appearance
order, and nothing else (in particular not `sort_key`) breaks ties. -/
def value_counts (l : List String) : List (String × Nat) :=
  (List.insertionSort cntRel
    ((firstSeenKeys l).map (fun k => (k, l.count k)))).reverse

/-- The per-line counts consumed by the distribution and top-N displays:
`df['ligne'].value_counts()`. -/
def countByLine (df : List FountainRecord) : List (String × Nat) :=
  value_counts (df.map (fun r => r.ligne))

/-- Line 320: `df['ligne'].value_counts().head(10)`. -/
def top_lines (df : List FountainRecord) : List (String × Nat) :=
  (countByLine df).take 10

/-- Key order used by `sort_index()` in line 53. -/
def idxRel (a b : String × Nat) : Prop := pyStrLe a.1 b.1 = true

instance : DecidableRel idxRel :=
  fun a b => inferInstanceAs (Decidable (pyStrLe a.1 b.1 = true))

/-- Line 53: `df['ligne'].value_counts().sort_index()`, the series behind
the distribution bar chart. -/
def line_counts (df : List FountainRecord) : List (String × Nat) :=
  List.insertionSort idxRel (countByLine df)

/-- Demo raw row: metro line 1, Paris postal code, both optional columns
present. -/
def demoRaw1 : RawRecord :=
  RawRecord.mk "F1" "1" "Chatelet" "2.34" "48.85" "I1" "1 rue A"
    (PyVal.int 75010) "Paris" "3" (Option.some "Acces 1")
    (Option.some "en zone contrôlée") "g1"

/-- Demo raw row: RER line A, suburban postal code, both optional columns
missing. -/
def demoRawA : RawRecord :=
  RawRecord.mk "F2" "A" "Vincennes" "2.43" "48.84" "I2" "2 rue B"
    (PyVal.int 93100) "Vincennes" "1" Option.none Option.none "g2"

/-- Demo raw row: metro line 14, Paris postal code. -/
def demoRaw14 : RawRecord :=
  RawRecord.mk "F3" "14" "Olympiades" "2.36" "48.82" "I3" "3 rue C"
    (PyVal.int 75015) "Paris" "2" (Option.some "Acces 3")
    (Option.some "en zone contrôlée") "g3"

/-- The three demo rows in raw order `["1", "A", "14"]`. -/
def demoRaws : List RawRecord := [demoRaw1, demoRawA, demoRaw14]

/-- `demoRaw1` after preparation. -/
def demoPrep1 : FountainRecord :=
  FountainRecord.mk "F1" "1" "Chatelet" "2.34" "48.85" "I1" "1 rue A"
    (PyVal.int 75010) "Paris" "3" "Acces 1" "en zone contrôlée"
    "Métro" "Paris" "g1"

/-- `demoRawA` after preparation: both defaults applied, RER, Banlieue. -/
def demoPrepA : FountainRecord :=
  FountainRecord.mk "F2" "A" "Vincennes" "2.43" "48.84" "I2" "2 rue B"
    (PyVal.int 93100) "Vincennes" "1" "Non spécifié" "non renseigné"
    "RER" "Banlieue" "g2"

/-- `demoRaw14` after preparation. -/
def demoPrep14 : FountainRecord :=
  FountainRecord.mk "F3" "14" "Olympiades" "2.36" "48.82" "I3" "3 rue C"
    (PyVal.int 75015) "Paris" "2" "Acces 3" "en zone contrôlée"
    "Métro" "Paris" "g3"

/-- The prepared demo table, in lexical `ligne` order `["1", "14", "A"]`. -/
def demoPrep : List FountainRecord := [demoPrep1, demoPrep14, demoPrepA]

/-- A raw row whose postal code is the non-numeric string `"ABC"`. -/
def demoRawBad : RawRecord :=
  RawRecord.mk "F4" "7" "Opera" "2.33" "48.87" "I4" "4 rue D"
    (PyVal.str "ABC") "Paris" "1" Option.none Option.none "g4"

/-- A raw row whose postal code is missing (NaN). -/
def demoRawNan : RawRecord :=
  RawRecord.mk "F5" "8" "Balard" "2.28" "48.84" "I5" "5 rue E"
    PyVal.nan "Paris" "1" Option.none Option.none "g5"

/-- A prepared record on line `"1"`, for the top-N tie example. -/
def demoTie1 : FountainRecord :=
  FountainRecord.mk "T1" "1" "Bastille" "2.37" "48.85" "J1" "6 rue F"
    (PyVal.int 75011) "Paris" "1" "Non spécifié" "non renseigné"
    "Métro" "Paris" "g6"

/-- A prepared record on line `"A"`, for the top-N tie example. -/
def demoTieA : FountainRecord :=
  FountainRecord.mk "T2" "A" "Nation" "2.40" "48.85" "J2" "7 rue G"
    (PyVal.int 75012) "Paris" "1" "Non spécifié" "non renseigné"
    "RER" "Paris" "g7"

theorem demo_prepare_ok : load_and_prepare_data demoRaws = Except.ok demoPrep := by
  rfl

theorem mem_df_filtered (df : List FountainRecord) (sel : FilterSelection)
    (r : FountainRecord) :
    r ∈ df_filtered df sel ↔
      r ∈ df ∧ r.ligne ∈ sel.lines ∧
        (sel.transitType ≠ "Tous" → r.type_ligne = sel.transitType) ∧
        (sel.zoneStatus ≠ "Toutes" → r.zone_controlee = sel.zoneStatus) := by
  by_cases ht : sel.transitType = "Tous" <;> by_cases hz : sel.zoneStatus = "Toutes" <;>
    simp [df_filtered, ht, hz, List.mem_filter, and_assoc] <;> tauto

/-- C1: the three filter predicates act conjunctively — a record is in
`df_filtered` iff it is in the base data, its line is selected, and it
matches the transit-type and zone equalities whenever those are not the
`'Tous'` / `'Toutes'` sentinels — and relaxing any one predicate to the
all-sentinel (for the line predicate: selecting every line of the dataset)
only enlarges the result. -/
theorem C1_filter_conjunctive_and_monotone (df : List FountainRecord)
    (sel : FilterSelection) (r : FountainRecord) :
    (r ∈ df_filtered df sel ↔
      r ∈ df ∧ r.ligne ∈ sel.lines ∧
        (sel.transitType ≠ "Tous" → r.type_ligne = sel.transitType) ∧
        (sel.zoneStatus ≠ "Toutes" → r.zone_controlee = sel.zoneStatus)) ∧
    (r ∈ df_filtered df sel →
      r ∈ df_filtered df
        (FilterSelection.mk (df.map (fun t => t.ligne)) sel.transitType sel.zoneStatus)) ∧
    (r ∈ df_filtered df sel →
      r ∈ df_filtered df (FilterSelection.mk sel.lines "Tous" sel.zoneStatus)) ∧
    (r ∈ df_filtered df sel →
      r ∈ df_filtered df (FilterSelection.mk sel.lines sel.transitType "Toutes")) := by
  refine ⟨mem_df_filtered df sel r, ?_, ?_, ?_⟩
  · intro h
    obtain ⟨hdf, _, htt, hzz⟩ := (mem_df_filtered df sel r).mp h
    exact (mem_df_filtered df _ r).mpr
      ⟨hdf, List.mem_map_of_mem _ hdf, htt, hzz⟩
  · intro h
    obtain ⟨hdf, hl, _, hzz⟩ := (mem_df_filtered df sel r).mp h
    exact (mem_df_filtered df _ r).mpr ⟨hdf, hl, by intro hc; exact absurd rfl hc, hzz⟩
  · intro h
    obtain ⟨hdf, hl, htt, _⟩ := (mem_df_filtered df sel r).mp h
    exact (mem_df_filtered df _ r).mpr ⟨hdf, hl, htt, by intro hc; exact absurd rfl hc⟩

theorem C1_witness :
    demoPrep1 ∈ df_filtered demoPrep (FilterSelection.mk ["1", "14"] "Métro" "Toutes") ∧
    demoPrep1 ∈ df_filtered demoPrep (FilterSelection.mk ["1", "14"] "Tous" "Toutes") := by
  have h := C1_filter_conjunctive_and_monotone demoPrep
    (FilterSelection.mk ["1", "14"] "Métro" "Toutes") demoPrep1
  have hin : demoPrep1 ∈ df_filtered demoPrep
      (FilterSelection.mk ["1", "14"] "Métro" "Toutes") :=
    h.1.mpr (by decide)
  exact ⟨hin, h.2.2.1 hin⟩

/-- C10: filtering is a chain of boolean masks, so the filtered view is a
subsequence of the base dataset — survivors keep their relative order. -/
theorem C10_filtered_subsequence (df : List FountainRecord) (sel : FilterSelection) :
    List.Sublist (df_filtered df sel) df := by
  have hsub : ∀ (l : List FountainRecord) (c : Prop) (inst : Decidable c)
      (p : FountainRecord → Bool),
      List.Sublist (@ite _ c inst (l.filter p) l) l := by
    intro l c inst p
    by_cases h : c
    · rw [if_pos h]; exact List.filter_sublist l
    · rw [if_neg h]
  unfold df_filtered
  exact List.Sublist.trans (hsub _ _ _ _)
    (List.Sublist.trans (hsub _ _ _ _) (List.filter_sublist df))

theorem C10_witness :
    List.Sublist
      (df_filtered demoPrep (FilterSelection.mk ["1", "14", "A"] "RER" "Toutes"))
      demoPrep :=
  C10_filtered_subsequence demoPrep (FilterSelection.mk ["1", "14", "A"] "RER" "Toutes")

/-- C7: filter evaluation is a total function and degenerate selections
yield empty results rather than errors — an empty line selection filters
everything out, a selection whose lines, whose (non-sentinel) transit
type, or whose (non-sentinel) zone status misses every record of the
dataset matches nothing, and the aggregation helpers on an empty view
are empty. -/
theorem C7_filter_never_raises (df : List FountainRecord) (sel : FilterSelection) :
    df_filtered df (FilterSelection.mk [] sel.transitType sel.zoneStatus) = [] ∧
    ((∀ r ∈ df, r.ligne ∉ sel.lines) → df_filtered df sel = []) ∧
    (sel.transitType ≠ "Tous" → (∀ r ∈ df, r.type_ligne ≠ sel.transitType) →
      df_filtered df sel = []) ∧
    (sel.zoneStatus ≠ "Toutes" → (∀ r ∈ df, r.zone_controlee ≠ sel.zoneStatus) →
      df_filtered df sel = []) ∧
    countByLine [] = [] ∧ top_lines [] = [] ∧ line_counts [] = [] := by
  refine ⟨?_, ?_, ?_, ?_, rfl, rfl, rfl⟩
  · rw [List.eq_nil_iff_forall_not_mem]
    intro r hr
    exact absurd ((mem_df_filtered df _ r).mp hr).2.1 (List.not_mem_nil r.ligne)
  · intro h
    rw [List.eq_nil_iff_forall_not_mem]
    intro r hr
    obtain ⟨hdf, hl, _, _⟩ := (mem_df_filtered df sel r).mp hr
    exact h r hdf hl
  · intro hts h
    rw [List.eq_nil_iff_forall_not_mem]
    intro r hr
    obtain ⟨hdf, _, htt, _⟩ := (mem_df_filtered df sel r).mp hr
    exact h r hdf (htt hts)
  · intro hzs h
    rw [List.eq_nil_iff_forall_not_mem]
    intro r hr
    obtain ⟨hdf, _, _, hzz⟩ := (mem_df_filtered df sel r).mp hr
    exact h r hdf (hzz hzs)

theorem C7_witness :
    df_filtered demoPrep (FilterSelection.mk [] "Tous" "Toutes") = [] ∧
    df_filtered demoPrep (FilterSelection.mk ["Z"] "Tous" "Toutes") = [] ∧
    df_filtered demoPrep (FilterSelection.mk ["1", "14", "A"] "Tram" "Toutes") = [] ∧
    df_filtered demoPrep (FilterSelection.mk ["1", "14", "A"] "Tous" "hors zone") = [] ∧
    countByLine [] = [] ∧ top_lines [] = [] ∧ line_counts [] = [] := by
  have h1 := C7_filter_never_raises demoPrep (FilterSelection.mk [] "Tous" "Toutes")
  have h2 := C7_filter_never_raises demoPrep (FilterSelection.mk ["Z"] "Tous" "Toutes")
  have h3 := C7_filter_never_raises demoPrep
    (FilterSelection.mk ["1", "14", "A"] "Tram" "Toutes")
  have h4 := C7_filter_never_raises demoPrep
    (FilterSelection.mk ["1", "14", "A"] "Tous" "hors zone")
  exact ⟨h1.1, h2.2.1 (by decide), h3.2.2.1 (by decide) (by decide),
    h4.2.2.2.1 (by decide) (by decide),
    h1.2.2.2.2.1, h1.2.2.2.2.2.1, h1.2.2.2.2.2.2⟩

theorem prepRecord_ok_fields (raw : RawRecord) (frec : FountainRecord)
    (h : prepRecord raw = Except.ok frec) :
    region_of raw.code_postal = Except.ok frec.region ∧
    frec.id_ratp = raw.id_ratp ∧ frec.ligne = raw.ligne ∧
    frec.station = raw.station ∧ frec.longitude = raw.longitude ∧
    frec.latitude = raw.latitude ∧ frec.id_idm = raw.id_idm ∧
    frec.adresse = raw.adresse ∧ frec.code_postal = raw.code_postal ∧
    frec.commune = raw.commune ∧ frec.num_acces = raw.num_acces ∧
    frec.nom_acces = raw.nom_acces.getD "Non spécifié" ∧
    frec.zone_controlee = raw.zone_controlee.getD "non renseigné" ∧
    frec.type_ligne = type_ligne_of raw.ligne ∧
    frec.point_geo = raw.point_geo := by
  unfold prepRecord at h
  cases hreg : region_of raw.code_postal with
  | error e => rw [hreg] at h; exact absurd h (by simp)
  | ok reg =>
      rw [hreg] at h
      cases h
      exact ⟨rfl, rfl, rfl, rfl, rfl, rfl, rfl, rfl, rfl, rfl, rfl, rfl, rfl, rfl, rfl⟩

theorem prepRows_mem (raws : List RawRecord) (recs : List FountainRecord)
    (h : prepRows raws = Except.ok recs) :
    ∀ frec ∈ recs, ∃ raw ∈ raws, prepRecord raw = Except.ok frec := by
  induction raws generalizing recs with
  | nil =>
      unfold prepRows at h
      cases h
      intro frec hf
      exact absurd hf (List.not_mem_nil frec)
  | cons r rs ih =>
      unfold prepRows at h
      cases hr : prepRecord r with
      | error e => rw [hr] at h; exact absurd h (by simp)
      | ok frec0 =>
          cases hrs : prepRows rs with
          | error e => rw [hr, hrs] at h; exact absurd h (by simp)
          | ok rest =>
              rw [hr, hrs] at h
              cases h
              intro frec hf
              rcases List.mem_cons.mp hf with he | hm
              · exact ⟨r, List.mem_cons_self r rs, he ▸ hr⟩
              · obtain ⟨raw, hraw, hp⟩ := ih rest hrs frec hm
                exact ⟨raw, List.mem_cons_of_mem r hraw, hp⟩

theorem prepare_mem (raws : List RawRecord) (recs : List FountainRecord)
    (h : load_and_prepare_data raws = Except.ok recs) :
    ∀ frec ∈ recs, ∃ raw ∈ raws, prepRecord raw = Except.ok frec := by
  unfold load_and_prepare_data at h
  cases hp : prepRows raws with
  | error e => rw [hp] at h; exact absurd h (by simp)
  | ok recs0 =>
      rw [hp] at h
      cases h
      intro frec hf
      exact prepRows_mem raws recs0 hp frec
        ((List.perm_insertionSort rowLe recs0).mem_iff.mp hf)

/-- C4: every prepared record carries a (non-null, plain-string) zone
status and access name — a missing raw zone status becomes
`'non renseigné'`, a missing raw access name becomes `'Non spécifié'`,
present values are kept verbatim, and every other column of the raw row is
preserved unmodified. -/
theorem C4_default_fill (raws : List RawRecord) (recs : List FountainRecord)
    (h : load_and_prepare_data raws = Except.ok recs) :
    ∀ frec ∈ recs, ∃ raw ∈ raws,
      (raw.zone_controlee = Option.none → frec.zone_controlee = "non renseigné") ∧
      (∀ z, raw.zone_controlee = Option.some z → frec.zone_controlee = z) ∧
      (raw.nom_acces = Option.none → frec.nom_acces = "Non spécifié") ∧
      (∀ a, raw.nom_acces = Option.some a → frec.nom_acces = a) ∧
      frec.id_ratp = raw.id_ratp ∧ frec.ligne = raw.ligne ∧
      frec.station = raw.station ∧ frec.longitude = raw.longitude ∧
      frec.latitude = raw.latitude ∧ frec.id_idm = raw.id_idm ∧
      frec.adresse = raw.adresse ∧ frec.code_postal = raw.code_postal ∧
      frec.commune = raw.commune ∧ frec.num_acces = raw.num_acces ∧
      frec.point_geo = raw.point_geo := by
  intro frec hf
  obtain ⟨raw, hraw, hp⟩ := prepare_mem raws recs h frec hf
  obtain ⟨_, f1, f2, f3, f4, f5, f6, f7, f8, f9, f10, fnom, fzone, _, f11⟩ :=
    prepRecord_ok_fields raw frec hp
  refine ⟨raw, hraw, ?_, ?_, ?_, ?_, f1, f2, f3, f4, f5, f6, f7, f8, f9, f10, f11⟩
  · intro hz; rw [fzone, hz]; rfl
  · intro z hz; rw [fzone, hz]; rfl
  · intro ha; rw [fnom, ha]; rfl
  · intro a ha; rw [fnom, ha]; rfl

theorem C4_witness :
    load_and_prepare_data demoRaws = Except.ok demoPrep ∧
    ∀ frec ∈ demoPrep, ∃ raw ∈ demoRaws,
      (raw.zone_controlee = Option.none → frec.zone_controlee = "non renseigné") ∧
      (∀ z, raw.zone_controlee = Option.some z → frec.zone_controlee = z) ∧
      (raw.nom_acces = Option.none → frec.nom_acces = "Non spécifié") ∧
      (∀ a, raw.nom_acces = Option.some a → frec.nom_acces = a) ∧
      frec.id_ratp = raw.id_ratp ∧ frec.ligne = raw.ligne ∧
      frec.station = raw.station ∧ frec.longitude = raw.longitude ∧
      frec.latitude = raw.latitude ∧ frec.id_idm = raw.id_idm ∧
      frec.adresse = raw.adresse ∧ frec.code_postal = raw.code_postal ∧
      frec.commune = raw.commune ∧ frec.num_acces = raw.num_acces ∧
      frec.point_geo = raw.point_geo :=
  ⟨demo_prepare_ok, C4_default_fill demoRaws demoPrep demo_prepare_ok⟩

theorem region_of_spec (x : PyVal) (reg : String)
    (h : region_of x = Except.ok reg) :
    (reg = "Paris" ↔ ∃ n : Int, x = PyVal.int n ∧ 75000 ≤ n ∧ n < 76000) ∧
    (reg ≠ "Paris" → reg = "Banlieue") := by
  cases x with
  | int n =>
      simp only [region_of] at h
      by_cases hn : 75000 ≤ n ∧ n < 76000
      · rw [if_pos hn] at h
        cases h
        exact ⟨⟨fun _ => ⟨n, rfl, hn.1, hn.2⟩, fun _ => rfl⟩, fun hne => absurd rfl hne⟩
      · rw [if_neg hn] at h
        cases h
        refine ⟨⟨fun hb => absurd hb (by decide), ?_⟩, fun _ => rfl⟩
        rintro ⟨m, hm, h1, h2⟩
        cases hm
        exact absurd ⟨h1, h2⟩ hn
  | nan =>
      simp only [region_of] at h
      cases h
      refine ⟨⟨fun hb => absurd hb (by decide), ?_⟩, fun _ => rfl⟩
      rintro ⟨m, hm, _, _⟩
      cases hm
  | str s =>
      simp only [region_of] at h
      exact absurd h (by simp)

/-- C2: on every successfully prepared record the derived columns are the
stated pure functions of their source columns — `type_ligne` is `"RER"`
exactly when the line is one of A-E (and `"Métro"` otherwise), and
`region` is `"Paris"` exactly when the postal code is an integer in
`[75000, 76000)` (and `"Banlieue"` otherwise). -/
theorem C2_derived_fields (raws : List RawRecord) (recs : List FountainRecord)
    (h : load_and_prepare_data raws = Except.ok recs) :
    ∀ frec ∈ recs,
      (frec.type_ligne = "RER" ↔ frec.ligne ∈ ["A", "B", "C", "D", "E"]) ∧
      (frec.type_ligne ≠ "RER" → frec.type_ligne = "Métro") ∧
      (frec.region = "Paris" ↔
        ∃ n : Int, frec.code_postal = PyVal.int n ∧ 75000 ≤ n ∧ n < 76000) ∧
      (frec.region ≠ "Paris" → frec.region = "Banlieue") ∧
      frec.type_ligne = type_ligne_of frec.ligne ∧
      region_of frec.code_postal = Except.ok frec.region := by
  intro frec hf
  obtain ⟨raw, _, hp⟩ := prepare_mem raws recs h frec hf
  obtain ⟨hreg, _, hligne, _, _, _, _, _, hcp, _, _, _, _, htype, _⟩ :=
    prepRecord_ok_fields raw frec hp
  have htype2 : frec.type_ligne = type_ligne_of frec.ligne := by rw [htype, hligne]
  have hreg2 : region_of frec.code_postal = Except.ok frec.region := by
    rw [hcp]; exact hreg
  obtain ⟨hiff, hban⟩ := region_of_spec frec.code_postal frec.region hreg2
  refine ⟨?_, ?_, hiff, hban, htype2, hreg2⟩
  · rw [htype2]
    unfold type_ligne_of
    by_cases hm : frec.ligne ∈ ["A", "B", "C", "D", "E"] <;> simp [hm]
  · intro hne
    rw [htype2] at hne ⊢
    unfold type_ligne_of at hne ⊢
    by_cases hm : frec.ligne ∈ ["A", "B", "C", "D", "E"] <;> simp [hm] at hne ⊢

theorem C2_witness :
    load_and_prepare_data demoRaws = Except.ok demoPrep ∧
    ∀ frec ∈ demoPrep,
      (frec.type_ligne = "RER" ↔ frec.ligne ∈ ["A", "B", "C", "D", "E"]) ∧
      (frec.type_ligne ≠ "RER" → frec.type_ligne = "Métro") ∧
      (frec.region = "Paris" ↔
        ∃ n : Int, frec.code_postal = PyVal.int n ∧ 75000 ≤ n ∧ n < 76000) ∧
      (frec.region ≠ "Paris" → frec.region = "Banlieue") ∧
      frec.type_ligne = type_ligne_of frec.ligne ∧
      region_of frec.code_postal = Except.ok frec.region :=
  ⟨demo_prepare_ok, C2_derived_fields demoRaws demoPrep demo_prepare_ok⟩

/-- C6 counterexample: a raw row whose postal code is the non-numeric
string `"ABC"` makes preparation fail with a `TypeError` — the record is
not classified as `"Banlieue"`, contrary to the claim that an unparseable
postal code never makes preparation fail. -/
theorem C6_counterexample :
    load_and_prepare_data [demoRawBad] = Except.error PyError.typeError := by
  rfl

/-- C6 amended: only a missing (NaN) postal code is tolerated — it is
classified `"Banlieue"` because `NaN >= 75000` evaluates to `False` — while
a postal code that is present but not parseable as a number makes the
`region` computation raise `TypeError`, aborting preparation. -/
theorem C6_unparseable_postal (raw : RawRecord) :
    (raw.code_postal = PyVal.nan →
      ∃ frec, prepRecord raw = Except.ok frec ∧ frec.region = "Banlieue") ∧
    (∀ s, raw.code_postal = PyVal.str s →
      prepRecord raw = Except.error PyError.typeError) := by
  constructor
  · intro hnan
    unfold prepRecord
    rw [hnan]
    exact ⟨_, rfl, rfl⟩
  · intro s hstr
    unfold prepRecord
    rw [hstr]
    rfl

theorem C6_witness :
    (∃ frec, prepRecord demoRawNan = Except.ok frec ∧ frec.region = "Banlieue") ∧
    prepRecord demoRawBad = Except.error PyError.typeError :=
  ⟨(C6_unparseable_postal demoRawNan).1 rfl,
   (C6_unparseable_postal demoRawBad).2 "ABC" rfl⟩

theorem firstSeenKeys_nodup (l : List String) : (firstSeenKeys l).Nodup := by
  induction l with
  | nil => exact List.nodup_nil
  | cons x xs ih =>
      unfold firstSeenKeys
      refine List.nodup_cons.mpr ⟨?_, ih.filter _⟩
      intro hx
      have hne := List.of_mem_filter hx
      simp at hne

theorem mem_firstSeenKeys (a : String) (l : List String) :
    a ∈ firstSeenKeys l ↔ a ∈ l := by
  induction l with
  | nil => simp [firstSeenKeys]
  | cons x xs ih =>
      unfold firstSeenKeys
      by_cases hax : a = x
      · simp [hax]
      · simp [List.mem_cons, List.mem_filter, bne_iff_ne, hax, ih]

theorem sum_counts_firstSeen (l : List String) :
    ((firstSeenKeys l).map (fun k => l.count k)).sum = l.length := by
  have hperm : List.Perm (firstSeenKeys l) l.dedup :=
    List.perm_of_nodup_nodup_toFinset_eq (firstSeenKeys_nodup l) l.nodup_dedup (by
      ext a
      simp [List.mem_toFinset, mem_firstSeenKeys, List.mem_dedup])
  calc ((firstSeenKeys l).map (fun k => l.count k)).sum
      = (l.dedup.map (fun k => l.count k)).sum := (hperm.map _).sum_eq
    _ = l.length := List.sum_map_count_dedup_eq_length l

/-- C8: the per-line counts of `value_counts` add up to the number of
records — every record contributes to exactly one line's count. -/
theorem C8_aggregation_total (df : List FountainRecord) :
    ((countByLine df).map (fun p => p.2)).sum = df.length := by
  unfold countByLine value_counts
  rw [List.map_reverse, List.sum_reverse]
  rw [((List.perm_insertionSort cntRel _).map (fun p : String × Nat => p.2)).sum_eq]
  rw [List.map_map]
  have hcomp : ((fun p : String × Nat => p.2) ∘
      fun k => (k, (df.map (fun r => r.ligne)).count k))
      = fun k => (df.map (fun r => r.ligne)).count k := rfl
  rw [hcomp, sum_counts_firstSeen, List.length_map]

theorem C8_witness :
    ((countByLine demoPrep).map (fun p => p.2)).sum = demoPrep.length :=
  C8_aggregation_total demoPrep

/-- C9 counterexample: two lines with equal counts, `"1"` seen before
`"A"`. `sort_key` orders `"1"` strictly before `"A"`, but `top_lines`
surfaces `"A"` first — count ties are not broken by the custom line
order. -/
theorem C9_counterexample :
    top_lines [demoTie1, demoTieA] = [("A", 1), ("1", 1)] ∧
    keyLtB (sort_key "1") (sort_key "A") = true := by
  exact ⟨by rfl, by rfl⟩

/-- C9 amended: the top-N display is `value_counts` truncated to its first
ten entries, and `value_counts` is ordered by descending count only; lines
with equal counts surface in reverse first-appearance order — an artifact
of reversing the stable ascending sort — and the custom `sort_key` order
is never consulted. -/
theorem C9_topn_order (df : List FountainRecord) :
    top_lines df = (countByLine df).take 10 ∧
    List.Pairwise (fun a b : String × Nat => b.2 ≤ a.2) (countByLine df) := by
  refine ⟨rfl, ?_⟩
  unfold countByLine value_counts
  haveI : IsTotal (String × Nat) cntRel := ⟨fun a b => Nat.le_total a.2 b.2⟩
  haveI : IsTrans (String × Nat) cntRel := ⟨fun a b c hab hbc => Nat.le_trans hab hbc⟩
  exact List.pairwise_reverse.mpr (List.sorted_insertionSort cntRel _)

theorem C9_witness :
    top_lines demoPrep = (countByLine demoPrep).take 10 ∧
    List.Pairwise (fun a b : String × Nat => b.2 ≤ a.2) (countByLine demoPrep) :=
  C9_topn_order demoPrep

theorem sort_key_digit (s : String) (h : pyIsdigit s = true) :
    sort_key s = (0, SortSnd.num (strToNat s)) := by
  simp [sort_key, h]

theorem pyIsdigit_append_bis (s : String) : pyIsdigit (s ++ "bis") = false := by
  unfold pyIsdigit
  rw [String.data_append]
  have h1 : ("bis" : String).data = ['b', 'i', 's'] := rfl
  rw [h1]
  simp [List.all_append]

theorem dropLast3_append_bis (s : String) : dropLast3 (s ++ "bis") = s := by
  unfold dropLast3
  rw [String.data_append]
  have h1 : ("bis" : String).data = ['b', 'i', 's'] := rfl
  rw [h1]
  have h2 : (s.data ++ ['b', 'i', 's']).length - 3 = s.data.length := by
    simp [List.length_append]
  rw [h2]
  have h3 : (s.data ++ ['b', 'i', 's']).take s.data.length = s.data := by simp
  rw [h3]

theorem pyEndsWith_append_bis (s : String) : pyEndsWith (s ++ "bis") "bis" = true := by
  unfold pyEndsWith
  rw [String.data_append]
  have h1 : ("bis" : String).data = ['b', 'i', 's'] := rfl
  rw [h1]
  have h2 : (s.data ++ ['b', 'i', 's']).length - (['b', 'i', 's'] : List Char).length
      = s.data.length := by simp
  rw [h2]
  simp

theorem pyIsBis_append_bis (s : String) (h : pyIsdigit s = true) :
    pyIsBis (s ++ "bis") = true := by
  unfold pyIsBis
  rw [dropLast3_append_bis, pyEndsWith_append_bis, h]
  rfl

theorem divInt_half (n : Nat) :
    Rat.divInt (2 * (n : Int) + 1) 2 = (n : ℚ) + 1 / 2 := by
  rw [Rat.divInt_eq_div]
  push_cast
  ring

theorem sort_key_bis (s : String) (h : pyIsdigit s = true) :
    sort_key (s ++ "bis") = (0, SortSnd.num ((strToNat s : ℚ) + 1 / 2)) := by
  unfold sort_key
  rw [pyIsdigit_append_bis, pyIsBis_append_bis s h, dropLast3_append_bis]
  simp [divInt_half]

theorem sort_key_other (s : String) (h1 : pyIsdigit s = false)
    (h2 : pyIsBis s = false) : sort_key s = (1, SortSnd.str s) := by
  simp [sort_key, h1, h2]

theorem keyLtB_num (a b : ℚ) :
    keyLtB (0, SortSnd.num a) (0, SortSnd.num b) = decide (a < b) := by
  simp [keyLtB, sndLtB]

theorem keyLtB_num_str (x y : SortSnd) : keyLtB (0, x) (1, y) = true := by
  simp [keyLtB]

theorem keyLtB_str_str (a b : String) :
    keyLtB (1, SortSnd.str a) (1, SortSnd.str b) = pyStrLt a b := by
  simp [keyLtB, sndLtB]

/-- C3: the custom display key sorts digit lines by their integer value,
gives `"N" + "bis"` the value `N + 0.5` — directly after `N` and before
every bigger numeric line — and places every other (alphabetic) line after
all numeric ones, ordered among themselves by string comparison; sorting
`["2", "1", "1bis", "A", "10"]` under the key yields
`["1", "1bis", "2", "10", "A"]`. -/
theorem C3_sort_key_order :
    (∀ s, pyIsdigit s = true → sort_key s = (0, SortSnd.num (strToNat s))) ∧
    (∀ s, pyIsdigit s = true →
      sort_key (s ++ "bis") = (0, SortSnd.num ((strToNat s : ℚ) + 1 / 2))) ∧
    (∀ s t, pyIsdigit s = true → pyIsdigit t = true →
      (keyLtB (sort_key s) (sort_key t) = true ↔ strToNat s < strToNat t)) ∧
    (∀ s, pyIsdigit s = true → keyLtB (sort_key s) (sort_key (s ++ "bis")) = true) ∧
    (∀ s t, pyIsdigit s = true → pyIsdigit t = true → strToNat s < strToNat t →
      keyLtB (sort_key (s ++ "bis")) (sort_key t) = true) ∧
    (∀ s, pyIsdigit s = false → pyIsBis s = false →
      sort_key s = (1, SortSnd.str s)) ∧
    (∀ s t, pyIsdigit s = true → pyIsdigit t = false → pyIsBis t = false →
      keyLtB (sort_key s) (sort_key t) = true) ∧
    (∀ s t, pyIsdigit s = false → pyIsBis s = false → pyIsdigit t = false →
      pyIsBis t = false →
      (keyLtB (sort_key s) (sort_key t) = true ↔ pyStrLt s t = true)) ∧
    sortedByKey ["2", "1", "1bis", "A", "10"] = ["1", "1bis", "2", "10", "A"] := by
  refine ⟨sort_key_digit, sort_key_bis, ?_, ?_, ?_, sort_key_other, ?_, ?_, by decide⟩
  · intro s t hs ht
    rw [sort_key_digit s hs, sort_key_digit t ht, keyLtB_num]
    simp [Nat.cast_lt]
  · intro s hs
    rw [sort_key_digit s hs, sort_key_bis s hs, keyLtB_num]
    simp only [decide_eq_true_eq]
    exact lt_add_of_pos_right _ (by norm_num)
  · intro s t hs ht hlt
    rw [sort_key_bis s hs, sort_key_digit t ht, keyLtB_num]
    simp only [decide_eq_true_eq]
    have hle : (strToNat s : ℚ) + 1 ≤ (strToNat t : ℚ) := by
      exact_mod_cast Nat.succ_le_of_lt hlt
    linarith
  · intro s t hs ht1 ht2
    rw [sort_key_digit s hs, sort_key_other t ht1 ht2]
    exact keyLtB_num_str _ _
  · intro s t hs1 hs2 ht1 ht2
    rw [sort_key_other s hs1 hs2, sort_key_other t ht1 ht2, keyLtB_str_str]

theorem C3_witness :
    sort_key "7" = (0, SortSnd.num (strToNat "7")) ∧
    sort_key ("7" ++ "bis") = (0, SortSnd.num ((strToNat "7" : ℚ) + 1 / 2)) ∧
    (keyLtB (sort_key "2") (sort_key "10") = true ↔ strToNat "2" < strToNat "10") ∧
    keyLtB (sort_key "7") (sort_key ("7" ++ "bis")) = true ∧
    keyLtB (sort_key ("7" ++ "bis")) (sort_key "10") = true ∧
    sort_key "A" = (1, SortSnd.str "A") ∧
    keyLtB (sort_key "10") (sort_key "A") = true ∧
    (keyLtB (sort_key "A") (sort_key "B") = true ↔ pyStrLt "A" "B" = true) ∧
    sortedByKey ["2", "1", "1bis", "A", "10"] = ["1", "1bis", "2", "10", "A"] :=
  ⟨C3_sort_key_order.1 "7" (by decide),
   C3_sort_key_order.2.1 "7" (by decide),
   C3_sort_key_order.2.2.1 "2" "10" (by decide) (by decide),
   C3_sort_key_order.2.2.2.1 "7" (by decide),
   C3_sort_key_order.2.2.2.2.1 "7" "10" (by decide) (by decide) (by decide),
   C3_sort_key_order.2.2.2.2.2.1 "A" (by decide) (by decide),
   C3_sort_key_order.2.2.2.2.2.2.1 "10" "A" (by decide) (by decide) (by decide),
   C3_sort_key_order.2.2.2.2.2.2.2.1 "A" "B" (by decide) (by decide) (by decide) (by decide),
   C3_sort_key_order.2.2.2.2.2.2.2.2⟩
